import Mathlib

/-!
Verification development for the AutoJob application-workflow core.

The TypeScript sources are shallowly embedded as follows.  Each
asynchronous collaborator call (Gemini API call, simulated dispatch-proof
synthesis, Supabase insert) is modelled by an explicit outcome value of
type `Except String α` (`.error msg` embeds a rejected promise carrying
`msg` as the error message, `.ok a` a resolved one).  A workflow-runner
function is embedded as a pure function from its component state and the
collaborator outcomes to the ordered list of its observable effects
(`Event`): status updates (`setAutomationStep`), collaborator
invocations, calls of the `onApply` callback (`emitLog`), and telemetry
lines (`addLog`).  Wall-clock values and `Math.random` identifiers are
passed in through a `Ctx` record.  React `useState` setters are ordinary
state writes recorded in the trace; an async closure reads the state
value captured when it started (the stale-closure semantics of React),
which is modelled by passing that captured value explicitly.
-/

namespace AutoJob

/-- ApplicationStatus enum from types.ts. -/
inductive ApplicationStatus
  | PENDING
  | EXTRACTING
  | MATCHING
  | GENERATING_CL
  | MUTATING_RESUME
  | APPLYING
  | COMPLETED
  | FAILED
  | RISK_HALT
  | INTERPRETING
  | STRATEGIZING
  | AUGMENTING
  | VERIFYING
deriving DecidableEq

/-- CoverLetterStyle enum from types.ts. -/
inductive CoverLetterStyle
  | ULTRA_CONCISE
  | RESULTS_DRIVEN
  | FOUNDER_FRIENDLY
  | TECHNICAL_DEEP_CUT
  | CHILL_PROFESSIONAL
deriving DecidableEq

/-- Experience entry from types.ts. -/
structure Experience where
  company : String
  role : String
  duration : String
  achievements : List String
deriving DecidableEq

/-- Project entry from types.ts. -/
structure Project where
  name : String
  description : String
  technologies : List String
deriving DecidableEq

/-- ResumeJson from types.ts. -/
structure ResumeJson where
  summary : String
  skills : List String
  experience : List Experience
  projects : List Project
deriving DecidableEq

/-- ResumeTrack from types.ts. -/
structure ResumeTrack where
  id : String
  name : String
  content : ResumeJson
deriving DecidableEq

/-- The report field of ResumeMutation from types.ts.  Optional
TypeScript fields are `Option`; `timings` is the pair
(mutationMs, analysisMs). -/
structure MutationReport where
  selectedTrackId : Option String := none
  selectedTrackName : Option String := none
  keywordsInjected : Option (List String) := none
  mirroredPhrases : Option (List (String × String)) := none
  reorderingJustification : Option String := none
  atsScoreEstimate : Option Int := none
  iterationCount : Option Nat := none
  timings : Option (Nat × Nat) := none
deriving DecidableEq

/-- ResumeMutation as the workflow runners consume it from the
collaborator interface (section 6 of the design): a mutated resume plus
a report. -/
structure ResumeMutation where
  mutatedResume : ResumeJson
  report : MutationReport
deriving DecidableEq

/-- ResumeMutation as the two `mutateResume` service implementations
actually build it at runtime: TypeScript performs no schema validation
on `JSON.parse`, so both fields can be `undefined`. -/
structure ResumeMutationJS where
  mutatedResume : Option ResumeJson := none
  report : Option MutationReport := none
deriving DecidableEq

/-- Search preferences from types.ts (`UserProfile.preferences`). -/
structure Preferences where
  targetRoles : List String
  minSalary : String
  locations : List String
  remoteOnly : Bool
  matchThreshold : Int
  preferredPlatforms : List String
deriving DecidableEq

/-- UserProfile from types.ts. -/
structure UserProfile where
  fullName : String
  email : String
  phone : String
  linkedin : String
  portfolio : String
  resumeTracks : List ResumeTrack
  preferences : Preferences
deriving DecidableEq

/-- Job from types.ts. -/
structure Job where
  id : String
  scrapedAt : String
  title : String
  company : String
  location : String
  skills : List String
  description : String
  applyUrl : String
  platform : String
deriving DecidableEq

/-- DiscoveredJob from types.ts. -/
structure DiscoveredJob where
  title : String
  company : String
  location : String
  url : String
  source : String
deriving DecidableEq

/-- MatchResult from types.ts. -/
structure MatchResult where
  score : Int
  reasoning : String
  missingSkills : List String
deriving DecidableEq

/-- VerificationProof as constructed by the runners (superset of the
optional-field interface in types.ts). -/
structure VerificationProof where
  dispatchHash : String
  networkLogs : List String
  serverStatusCode : Int
  timings : Option (Nat × Nat × Nat) := none
  virtualScreenshot : Option String := none
deriving DecidableEq

/-- ApplicationLog from types.ts. -/
structure ApplicationLog where
  id : String
  jobId : String
  jobTitle : String
  company : String
  status : ApplicationStatus
  timestamp : String
  url : String
  platform : Option String := none
  location : Option String := none
  coverLetter : Option String := none
  coverLetterStyle : Option CoverLetterStyle := none
  mutatedResume : Option ResumeJson := none
  mutationReport : Option MutationReport := none
  verification : Option VerificationProof := none
deriving DecidableEq

/-- CommandResult from types.ts (`action` is a string tag; `goal` and
`reason` are optional). -/
structure CommandResult where
  action : String
  goal : Option String := none
  reason : Option String := none
deriving DecidableEq

/-- The external collaborator functions the workflow runners invoke. -/
inductive Collab
  | extractJobData
  | calculateMatchScore
  | generateCoverLetter
  | mutateResumeC
  | generateDispatchProof
  | searchJobsC
deriving DecidableEq

/-- One observable effect of a workflow runner, in program order:
a `setAutomationStep` state write, the start of a collaborator call, an
`onApply` callback (emitting an ApplicationLog), or an `addLog`
telemetry line. -/
inductive Event
  | setStatus (s : ApplicationStatus)
  | call (c : Collab)
  | emitLog (l : ApplicationLog)
  | logLine (m : String)
deriving DecidableEq

/-- ApplicationLogs handed to the `onApply` callback, in order. -/
def emitted (tr : List Event) : List ApplicationLog :=
  tr.filterMap fun e =>
    match e with
    | Event.emitLog l => some l
    | _ => none

/-- The successive values written to the `automationStep` status state,
in order. -/
def statuses (tr : List Event) : List ApplicationStatus :=
  tr.filterMap fun e =>
    match e with
    | Event.setStatus s => some s
    | _ => none

/-- The telemetry lines appended by `addLog`, in order. -/
def logLines (tr : List Event) : List String :=
  tr.filterMap fun e =>
    match e with
    | Event.logLine m => some m
    | _ => none

/-- The collaborator calls issued, in order. -/
def callsOf (tr : List Event) : List Collab :=
  tr.filterMap fun e =>
    match e with
    | Event.call c => some c
    | _ => none

/-- The last value written to the status state by the run, if any. -/
def finalStatus (tr : List Event) : Option ApplicationStatus :=
  (statuses tr).getLast?

/-- The events of a trace other than telemetry lines: status writes,
collaborator calls and emitted logs. -/
def observables (tr : List Event) : List Event :=
  tr.filter fun e =>
    match e with
    | Event.logLine _ => false
    | _ => true

/-- Run-scoped nondeterminism: the `Math.random`-derived id and the
ISO timestamp used when assembling an ApplicationLog. -/
structure Ctx where
  freshId : String
  now : String
deriving DecidableEq

/-- Outcomes of the collaborator calls a single-job apply cycle makes:
cover-letter generation, resume mutation, and dispatch-proof synthesis
(the latter covers the inline proof construction, whose URL parsing can
throw). -/
structure SingleEnv where
  coverLetter : Except String String
  mutation : Except String ResumeMutation
  proofOutcome : Except String VerificationProof

/-- JavaScript `s || d` on strings: the default wins exactly when `s`
is the empty string (the only falsy non-undefined string). -/
def strOr (s d : String) : String :=
  if s = "" then d else s

/-- The ApplicationLog assembled by `startAutomation` in
src/components/JobHunter.tsx (lines 146-161). -/
def tsxLog (job : Job) (style : CoverLetterStyle) (ctx : Ctx)
    (cl : String) (mu : ResumeMutation) (pr : VerificationProof) : ApplicationLog :=
  { id := ctx.freshId
    jobId := job.id
    jobTitle := job.title
    company := job.company
    status := ApplicationStatus.COMPLETED
    timestamp := ctx.now
    url := job.applyUrl
    location := some (strOr job.location "Remote")
    platform := some (strOr job.platform "Other")
    coverLetter := some cl
    coverLetterStyle := some style
    mutatedResume := some mu.mutatedResume
    mutationReport := some mu.report
    verification := some pr }

/-- startAutomation from src/components/JobHunter.tsx (lines 108-177).
Guard: returns when no current job or already processing.  Steps:
GENERATING_CL (cover letter), MUTATING_RESUME (resume mutation),
APPLYING (fixed 2s delay), VERIFYING (inline proof synthesis), then
`onApply` with a fully populated log, COMPLETED, and a deferred
`setTimeout` reset of the status back to PENDING 3 seconds later, which
is recorded as the final event of the run.  Any rejection is caught:
one DISPATCH FAILED log line with the error message, status FAILED. -/
def startAutomationTSX (currentJob : Option Job) (isProcessing : Bool)
    (style : CoverLetterStyle) (env : SingleEnv) (ctx : Ctx) : List Event :=
  match currentJob with
  | none => []
  | some job =>
    if isProcessing then []
    else
      Event.setStatus ApplicationStatus.GENERATING_CL ::
      Event.logLine "Synthesizing tailored artifacts..." ::
      Event.call Collab.generateCoverLetter ::
      match env.coverLetter with
      | Except.error e => [Event.logLine ("DISPATCH FAILED: " ++ e), Event.setStatus ApplicationStatus.FAILED]
      | Except.ok cl =>
        Event.setStatus ApplicationStatus.MUTATING_RESUME ::
        Event.logLine "Commencing Atomic Mutation of Base Track..." ::
        Event.call Collab.mutateResumeC ::
        match env.mutation with
        | Except.error e => [Event.logLine ("DISPATCH FAILED: " ++ e), Event.setStatus ApplicationStatus.FAILED]
        | Except.ok mu =>
          Event.logLine ("Mutation complete. Injected "
              ++ toString (mu.report.keywordsInjected.getD []).length ++ " technical keywords.") ::
          Event.setStatus ApplicationStatus.APPLYING ::
          Event.logLine "Dispatching encrypted payload to target servers..." ::
          Event.setStatus ApplicationStatus.VERIFYING ::
          match env.proofOutcome with
          | Except.error e => [Event.logLine ("DISPATCH FAILED: " ++ e), Event.setStatus ApplicationStatus.FAILED]
          | Except.ok pr =>
            [Event.emitLog (tsxLog job style ctx cl mu pr),
             Event.setStatus ApplicationStatus.COMPLETED,
             Event.logLine "SUCCESS: Dispatch Verified.",
             Event.setStatus ApplicationStatus.PENDING]

/-- The ApplicationLog assembled by `startTailoring` in
src/unnamed/part_001 (lines 110-123).  It has no `coverLetterStyle` and,
unlike the other variants, no `verification` field. -/
def p1Log (job : Job) (ctx : Ctx) (cl : String) (mu : ResumeMutation) : ApplicationLog :=
  { id := ctx.freshId
    jobId := job.id
    jobTitle := job.title
    company := job.company
    status := ApplicationStatus.COMPLETED
    timestamp := ctx.now
    url := job.applyUrl
    location := some (strOr job.location "Remote")
    platform := some (strOr job.platform "Other")
    coverLetter := some cl
    mutatedResume := some mu.mutatedResume
    mutationReport := some mu.report
    verification := none }

/-- startTailoring from src/unnamed/part_001 (lines 99-133): cover
letter, resume mutation, then VERIFYING and `onApply` with a log that
carries no verification proof, then COMPLETED.  A rejection yields one
Tailoring Failed line and status FAILED.  `proofOutcome` of the
environment is unused: this variant synthesizes no proof. -/
def startTailoringP1 (currentJob : Option Job) (isProcessing : Bool)
    (env : SingleEnv) (ctx : Ctx) : List Event :=
  match currentJob with
  | none => []
  | some job =>
    if isProcessing then []
    else
      Event.setStatus ApplicationStatus.GENERATING_CL ::
      Event.call Collab.generateCoverLetter ::
      match env.coverLetter with
      | Except.error e => [Event.logLine ("Tailoring Failed: " ++ e), Event.setStatus ApplicationStatus.FAILED]
      | Except.ok cl =>
        Event.setStatus ApplicationStatus.MUTATING_RESUME ::
        Event.call Collab.mutateResumeC ::
        match env.mutation with
        | Except.error e => [Event.logLine ("Tailoring Failed: " ++ e), Event.setStatus ApplicationStatus.FAILED]
        | Except.ok mu =>
          [Event.setStatus ApplicationStatus.VERIFYING,
           Event.emitLog (p1Log job ctx cl mu),
           Event.setStatus ApplicationStatus.COMPLETED,
           Event.logLine "Package ready! Use the Copy buttons to apply."]

/-- The ApplicationLog assembled by `startAutomation` in
src/unnamed/part_000 (lines 414-429). -/
def p0Log (job : Job) (style : CoverLetterStyle) (ctx : Ctx)
    (cl : String) (mu : ResumeMutation) (pr : VerificationProof) : ApplicationLog :=
  { id := ctx.freshId
    jobId := job.id
    jobTitle := job.title
    company := job.company
    status := ApplicationStatus.COMPLETED
    timestamp := ctx.now
    url := job.applyUrl
    platform := some job.platform
    location := some job.location
    coverLetter := some cl
    coverLetterStyle := some style
    mutatedResume := some mu.mutatedResume
    mutationReport := some mu.report
    verification := some pr }

/-- startAutomation from src/unnamed/part_000 (lines 396-440).  The
entry guard returns when no current job, no match result, or the risk
gate is locked; it produces no event at all in those cases (no
RISK_HALT transition, no log line).  On success: cover letter, resume
mutation, APPLYING with a human delay, VERIFYING with
generateDispatchProof, `onApply`, a VERIFIED line, COMPLETED.  The
catch block (lines 435-436) only sets status FAILED: it adds no log
line and emits nothing. -/
def startAutomationP0 (currentJob : Option Job) (matchRes : Option MatchResult)
    (riskLocked : Bool) (style : CoverLetterStyle) (env : SingleEnv) (ctx : Ctx) : List Event :=
  match currentJob, matchRes with
  | some job, some _ =>
    if riskLocked then []
    else
      Event.setStatus ApplicationStatus.GENERATING_CL ::
      Event.call Collab.generateCoverLetter ::
      match env.coverLetter with
      | Except.error _ => [Event.setStatus ApplicationStatus.FAILED]
      | Except.ok cl =>
        Event.setStatus ApplicationStatus.MUTATING_RESUME ::
        Event.call Collab.mutateResumeC ::
        match env.mutation with
        | Except.error _ => [Event.setStatus ApplicationStatus.FAILED]
        | Except.ok mu =>
          Event.setStatus ApplicationStatus.APPLYING ::
          Event.logLine ("HANDSHAKE: Establishing secure connection to " ++ job.company ++ " endpoint...") ::
          Event.setStatus ApplicationStatus.VERIFYING ::
          Event.logLine "VERIFYING: Capturing dispatch proof and server response tokens..." ::
          Event.call Collab.generateDispatchProof ::
          match env.proofOutcome with
          | Except.error _ => [Event.setStatus ApplicationStatus.FAILED]
          | Except.ok pr =>
            [Event.emitLog (p0Log job style ctx cl mu pr),
             Event.logLine ("VERIFIED: Application confirmed with Dispatch Hash "
                 ++ pr.dispatchHash.take 16 ++ "..."),
             Event.setStatus ApplicationStatus.COMPLETED]
  | _, _ => []

/-- Outcomes of the collaborator calls `processInput` can make. -/
structure InputEnv where
  extract : Except String Job
  score : Except String MatchResult
  search : Except String (List DiscoveredJob)

/-- processInput from src/components/JobHunter.tsx (lines 72-106).
`staleStatus` is the `automationStep` value captured by the async
closure when the handler started: the `finally` block compares THAT
value (not the current state) against FAILED, so after a failure it
still resets the status to PENDING whenever the captured value was not
FAILED. -/
def processInputTSX (jobInput : String) (staleStatus : ApplicationStatus)
    (env : InputEnv) : List Event :=
  if jobInput.trim = "" then []
  else
    let isUrl := jobInput.toLower.startsWith "http"
    (Event.setStatus (if isUrl then ApplicationStatus.EXTRACTING else ApplicationStatus.STRATEGIZING) ::
      (if isUrl then
        Event.logLine "Initiating Web-Grounded Analysis for target..." ::
        Event.call Collab.extractJobData ::
        match env.extract with
        | Except.error e => [Event.logLine ("SYSTEM ERROR: " ++ e), Event.setStatus ApplicationStatus.FAILED]
        | Except.ok job =>
          Event.logLine ("Target Identified: " ++ job.title ++ " at " ++ job.company) ::
          Event.setStatus ApplicationStatus.MATCHING ::
          Event.logLine "Commencing Skill Gap Analysis..." ::
          Event.call Collab.calculateMatchScore ::
          match env.score with
          | Except.error e => [Event.logLine ("SYSTEM ERROR: " ++ e), Event.setStatus ApplicationStatus.FAILED]
          | Except.ok res =>
            [Event.logLine ("Match Confirmed: " ++ toString res.score ++ "% | Gaps found: "
                ++ toString res.missingSkills.length)]
      else
        Event.logLine "Executing REAL search across index..." ::
        Event.call Collab.searchJobsC ::
        match env.search with
        | Except.error e => [Event.logLine ("SYSTEM ERROR: " ++ e), Event.setStatus ApplicationStatus.FAILED]
        | Except.ok results =>
          [Event.logLine ("Discovered " ++ toString results.length ++ " high-signal listings.")]))
    ++ (if staleStatus = ApplicationStatus.FAILED then [] else [Event.setStatus ApplicationStatus.PENDING])

/-- processInput from src/unnamed/part_001 (lines 50-83): same control
flow as the JobHunter.tsx variant (including the stale-closure read in
the `finally` block), with this file's log strings. -/
def processInputP1 (jobInput : String) (staleStatus : ApplicationStatus)
    (env : InputEnv) : List Event :=
  if jobInput.trim = "" then []
  else
    let isUrl := jobInput.toLower.startsWith "http"
    (Event.setStatus (if isUrl then ApplicationStatus.EXTRACTING else ApplicationStatus.STRATEGIZING) ::
      (if isUrl then
        Event.logLine ("Analyzing link: " ++ jobInput) ::
        Event.call Collab.extractJobData ::
        match env.extract with
        | Except.error e => [Event.logLine ("Error: " ++ e), Event.setStatus ApplicationStatus.FAILED]
        | Except.ok job =>
          Event.logLine ("Identified: " ++ job.title ++ " at " ++ job.company) ::
          Event.setStatus ApplicationStatus.MATCHING ::
          Event.call Collab.calculateMatchScore ::
          match env.score with
          | Except.error e => [Event.logLine ("Error: " ++ e), Event.setStatus ApplicationStatus.FAILED]
          | Except.ok _ => []
      else
        Event.logLine ("Searching web for: " ++ jobInput ++ "...") ::
        Event.call Collab.searchJobsC ::
        match env.search with
        | Except.error e => [Event.logLine ("Error: " ++ e), Event.setStatus ApplicationStatus.FAILED]
        | Except.ok results =>
          [Event.logLine ("Found " ++ toString results.length ++ " active leads.")]))
    ++ (if staleStatus = ApplicationStatus.FAILED then [] else [Event.setStatus ApplicationStatus.PENDING])

/-- The threshold used by runBulkDeployment (src/unnamed/part_000 line
463): `profile.preferences.matchThreshold || 70` — the fixed default 70
applies exactly when the stored threshold is the falsy number 0. -/
def bulkThreshold (p : UserProfile) : Int :=
  if p.preferences.matchThreshold = 0 then 70 else p.preferences.matchThreshold

/-- Outcomes of the collaborator calls one bulk iteration can make. -/
structure BulkJobEnv where
  extract : Except String Job
  score : Except String MatchResult
  mutation : Except String ResumeMutation
  coverLetter : Except String String
  proofOutcome : Except String VerificationProof

/-- The ApplicationLog assembled inside the bulk loop
(src/unnamed/part_000 lines 476-491). -/
def bulkLog (jobData : Job) (style : CoverLetterStyle) (ctx : Ctx)
    (cl : String) (mu : ResumeMutation) (pr : VerificationProof) : ApplicationLog :=
  { id := ctx.freshId
    jobId := jobData.id
    jobTitle := jobData.title
    company := jobData.company
    status := ApplicationStatus.COMPLETED
    timestamp := ctx.now
    url := jobData.applyUrl
    platform := some jobData.platform
    location := some jobData.location
    coverLetter := some cl
    coverLetterStyle := some style
    mutatedResume := some mu.mutatedResume
    mutationReport := some mu.report
    verification := some pr }

/-- The body of one bulk-loop iteration after the per-iteration
dispatch log line (src/unnamed/part_000 lines 456-496): extract, score,
and — only when `score >= matchThreshold || 70` — mutate resume, THEN
generate the cover letter, APPLY (human delay), VERIFY, and call
`onApply`.  Any rejection is caught per-item: one FAILED log line naming
the queued job's company, and the loop moves on. -/
def runBulkIterCore (p : UserProfile) (style : CoverLetterStyle)
    (tj : DiscoveredJob) (env : BulkJobEnv) (ctx : Ctx) : List Event :=
  Event.setStatus ApplicationStatus.EXTRACTING ::
  Event.call Collab.extractJobData ::
  match env.extract with
  | Except.error _ => [Event.logLine ("FAILED: " ++ tj.company ++ " mission aborted.")]
  | Except.ok jobData =>
    Event.setStatus ApplicationStatus.MATCHING ::
    Event.call Collab.calculateMatchScore ::
    match env.score with
    | Except.error _ => [Event.logLine ("FAILED: " ++ tj.company ++ " mission aborted.")]
    | Except.ok matchResult =>
      if bulkThreshold p ≤ matchResult.score then
        Event.setStatus ApplicationStatus.MUTATING_RESUME ::
        Event.call Collab.mutateResumeC ::
        match env.mutation with
        | Except.error _ => [Event.logLine ("FAILED: " ++ tj.company ++ " mission aborted.")]
        | Except.ok mu =>
          Event.setStatus ApplicationStatus.GENERATING_CL ::
          Event.call Collab.generateCoverLetter ::
          match env.coverLetter with
          | Except.error _ => [Event.logLine ("FAILED: " ++ tj.company ++ " mission aborted.")]
          | Except.ok cl =>
            Event.setStatus ApplicationStatus.APPLYING ::
            Event.setStatus ApplicationStatus.VERIFYING ::
            Event.call Collab.generateDispatchProof ::
            match env.proofOutcome with
            | Except.error _ => [Event.logLine ("FAILED: " ++ tj.company ++ " mission aborted.")]
            | Except.ok pr => [Event.emitLog (bulkLog jobData style ctx cl mu pr)]
      else []

/-- One full bulk-loop iteration for queue entry `tj` at index `i` of a
queue of `total` entries: the DISPATCHING MISSION telemetry line, then
the iteration body. -/
def runBulkIter (p : UserProfile) (style : CoverLetterStyle) (tj : DiscoveredJob)
    (i total : Nat) (env : BulkJobEnv) (ctx : Ctx) : List Event :=
  Event.logLine ("DISPATCHING MISSION [" ++ toString (i + 1) ++ "/" ++ toString total
      ++ "]: " ++ tj.title) ::
  runBulkIterCore p style tj env ctx

/-- The bulk loop from index `i` (src/unnamed/part_000 lines 449-497).
`stop j` is the value the cooperative cancellation flag
`stopBulkRef.current` holds when the check at the top of iteration `j`
runs; a true reading breaks out of the loop before any work of that
iteration starts. -/
def runBulkFrom (p : UserProfile) (style : CoverLetterStyle)
    (envs : Nat → BulkJobEnv) (stop : Nat → Bool) (ctxs : Nat → Ctx)
    (total : Nat) : Nat → List DiscoveredJob → List Event
  | _, [] => []
  | i, tj :: rest =>
    if stop i then []
    else runBulkIter p style tj i total (envs i) (ctxs i)
        ++ runBulkFrom p style envs stop ctxs total (i + 1) rest

/-- runBulkDeployment from src/unnamed/part_000 (lines 442-500).  The
entry guard returns — producing no event at all, in particular no
RISK_HALT transition and no log line — when the queue is empty, the
risk gate is locked, or a bulk run is already active.  Otherwise the
loop runs and the status is finally reset to PENDING. -/
def runBulkDeployment (p : UserProfile) (style : CoverLetterStyle)
    (jobs : List DiscoveredJob) (envs : Nat → BulkJobEnv) (stop : Nat → Bool)
    (riskLocked isBulkActive : Bool) (ctxs : Nat → Ctx) : List Event :=
  if jobs.length = 0 ∨ riskLocked = true ∨ isBulkActive = true then []
  else runBulkFrom p style envs stop ctxs jobs.length 0 jobs
      ++ [Event.setStatus ApplicationStatus.PENDING]

/-- handleNewApplication from src/unnamed/part_002 (lines 120-143),
returning the new in-memory applications list and the list of warnings
surfaced to the user.  `ins` is the outcome of the Supabase insert
(`.ok savedId` carries the id of the saved row).  The log is appended —
with the store-assigned id — only when the insert succeeded; on an
insert error the state is left untouched and no warning of any kind is
produced. -/
def handleNewApplication (hasSession : Bool) (apps : List ApplicationLog)
    (log : ApplicationLog) (ins : Except String String) :
    List ApplicationLog × List String :=
  if hasSession = false then (apps, [])
  else
    match ins with
    | Except.ok savedId => (apps ++ [{ log with id := savedId }], [])
    | Except.error _ => (apps, [])

/-- The outcome of one `generateContent` call followed by `JSON.parse`
of `response.text || default`: the promise rejected (`throws`, covering
a missing API key, network failure, or schema error), the text parsed
to a structured value (`parsed`), or `JSON.parse` threw
(`unparseable`). -/
inductive MutateResp
  | throws (msg : String)
  | parsed (m : ResumeMutationJS)
  | unparseable
deriving DecidableEq

/-- The hard-coded fallback report built by the catch block of
mutateResume in src/unnamed/part_003 (lines 257-262). -/
def p3FallbackReport (p : UserProfile) : MutationReport :=
  { selectedTrackId := some (match p.resumeTracks.head? with
      | some t => strOr t.id "error"
      | none => "error")
    selectedTrackName := some (match p.resumeTracks.head? with
      | some t => strOr t.name "Error"
      | none => "Error")
    keywordsInjected := some []
    mirroredPhrases := some []
    reorderingJustification := some "System fallback"
    atsScoreEstimate := some 50
    iterationCount := some 1 }

/-- mutateResume from src/unnamed/part_003 (lines 167-265).  The
`generateContent` rejection propagates (the await sits outside the
try), a parsed response is returned as is, and a `JSON.parse` failure
is caught and replaced by the first resume track's content with the
fixed fallback report. -/
def mutateResumeP3 (p : UserProfile) (resp : MutateResp) : Except String ResumeMutationJS :=
  match resp with
  | MutateResp.throws m => Except.error m
  | MutateResp.parsed m => Except.ok m
  | MutateResp.unparseable =>
    Except.ok { mutatedResume := (p.resumeTracks.head?).map ResumeTrack.content
                report := some (p3FallbackReport p) }

/-- mutateResume from src/services/gemini.ts (lines 125-179).  There is
no try/catch around the `JSON.parse` of the response text, so an
unparseable response text throws a SyntaxError that propagates to the
caller; a parsed response gets its report's `timings` overwritten with
the measured durations. -/
def mutateResumeGemini (resp : MutateResp) (mutationMs analysisMs : Nat) :
    Except String ResumeMutationJS :=
  match resp with
  | MutateResp.throws m => Except.error m
  | MutateResp.parsed m =>
    Except.ok { m with report := some { m.report.getD {} with timings := some (mutationMs, analysisMs) } }
  | MutateResp.unparseable => Except.error "SyntaxError: Unexpected token in JSON"

/-- The outcome of the `generateContent` call and response parse inside
interpretCommand: the call rejected (`throws`), `response.text` parsed
to a CommandResult (`parsed`), `response.text` was empty so the
hard-coded default object was parsed instead (`emptyText`), or
`JSON.parse` threw (`unparseable`). -/
inductive CmdResp
  | throws (msg : String)
  | parsed (r : CommandResult)
  | emptyText
  | unparseable
deriving DecidableEq

/-- The CommandResult returned by the catch block of interpretCommand
in src/services/gemini.ts (line 43). -/
def blockedFallbackCmd : CommandResult :=
  { action := "blocked", reason := some "Failed to connect to Command Center." }

/-- The body of interpretCommand from src/services/gemini.ts (lines
22-41) without its surrounding catch: any throwing step — the API-key
check in getAi, the generateContent call, or JSON.parse — surfaces as
an error. -/
def interpretCommandBody (resp : CmdResp) : Except String CommandResult :=
  match resp with
  | CmdResp.throws m => Except.error m
  | CmdResp.parsed r => Except.ok r
  | CmdResp.emptyText => Except.ok { action := "blocked" }
  | CmdResp.unparseable => Except.error "SyntaxError: Unexpected token in JSON"

/-- interpretCommand from src/services/gemini.ts (lines 21-45): the
body wrapped in the try/catch that converts every rejection into the
blocked fallback CommandResult. -/
def interpretCommand (resp : CmdResp) : Except String CommandResult :=
  match interpretCommandBody resp with
  | Except.ok r => Except.ok r
  | Except.error _ => Except.ok blockedFallbackCmd

/-! Concrete sample values used by witnesses and counterexamples. -/

/-- Sample resume body. -/
def rjA : ResumeJson :=
  { summary := "Senior engineer", skills := ["TypeScript"], experience := [], projects := [] }

/-- Sample resume track. -/
def trackA : ResumeTrack := { id := "t1", name := "Main", content := rjA }

/-- Sample preferences with the documented threshold 70. -/
def prefsA : Preferences :=
  { targetRoles := ["Staff Engineer"], minSalary := "100k", locations := ["Remote"],
    remoteOnly := true, matchThreshold := 70, preferredPlatforms := ["LinkedIn"] }

/-- Sample profile with one resume track. -/
def profileA : UserProfile :=
  { fullName := "Jane Doe", email := "jane@example.com", phone := "", linkedin := "",
    portfolio := "", resumeTracks := [trackA], preferences := prefsA }

/-- Sample extracted job. -/
def jobA : Job :=
  { id := "job1", scrapedAt := "2026-01-01", title := "Staff Engineer", company := "Acme",
    location := "Remote", skills := ["TypeScript"], description := "Build things.",
    applyUrl := "https://acme.example/jobs/1", platform := "LinkedIn" }

/-- Sample match result above the threshold. -/
def mrA : MatchResult := { score := 85, reasoning := "strong overlap", missingSkills := [] }

/-- Sample run context. -/
def ctxA : Ctx := { freshId := "id1", now := "2026-01-02T00:00:00Z" }

/-- Sample mutation outcome. -/
def muA : ResumeMutation :=
  { mutatedResume := rjA,
    report := { keywordsInjected := some ["Kubernetes"], atsScoreEstimate := some 90 } }

/-- Sample dispatch proof. -/
def prA : VerificationProof :=
  { dispatchHash := "abc123", networkLogs := ["CONNECT acme.example:443"], serverStatusCode := 200 }

/-- Environment in which every collaborator call succeeds. -/
def envOkA : SingleEnv :=
  { coverLetter := Except.ok "Dear team", mutation := Except.ok muA, proofOutcome := Except.ok prA }

/-- Environment in which cover-letter generation rejects. -/
def envFailCLA : SingleEnv :=
  { coverLetter := Except.error "Network Error", mutation := Except.ok muA,
    proofOutcome := Except.ok prA }

/-- Sample queue entries for the bulk runner. -/
def djA : DiscoveredJob :=
  { title := "Staff Engineer", company := "Acme", location := "Remote",
    url := "https://acme.example/jobs/1", source := "LinkedIn" }

/-- Second sample queue entry. -/
def djB : DiscoveredJob :=
  { title := "Platform Engineer", company := "Beta", location := "NYC",
    url := "https://beta.example/jobs/2", source := "Indeed" }

/-- Bulk-iteration environment in which everything succeeds and the
score 85 clears the threshold 70. -/
def bulkEnvA : BulkJobEnv :=
  { extract := Except.ok jobA, score := Except.ok mrA, mutation := Except.ok muA,
    coverLetter := Except.ok "Dear team", proofOutcome := Except.ok prA }

/-- Input-processing environment in which every collaborator call
succeeds. -/
def inputEnvA : InputEnv :=
  { extract := Except.ok jobA, score := Except.ok mrA, search := Except.ok [djA] }

/-- The status writes that happen strictly after the first write of a
terminal status (FAILED or COMPLETED) in a run's status sequence. -/
def afterTerminal : List ApplicationStatus → List ApplicationStatus
  | [] => []
  | s :: rest =>
    if s = ApplicationStatus.FAILED ∨ s = ApplicationStatus.COMPLETED then rest
    else afterTerminal rest

/-- Scanner for `precedesOK`: `seen` records whether `a` has occurred
yet; the scan fails on an occurrence of `b` before the first `a`. -/
def precededScan (a b : ApplicationStatus) : List ApplicationStatus → Bool → Bool
  | [], _ => true
  | s :: rest, seen =>
    if decide (s = b) && !seen then false
    else precededScan a b rest (seen || decide (s = a))

/-- True when every occurrence of status `b` in the sequence is
preceded by an earlier occurrence of status `a`. -/
def precedesOK (a b : ApplicationStatus) (l : List ApplicationStatus) : Bool :=
  precededScan a b l false

/-- The single-job environment rejects with message `e` at its first
failing step, among cover letter, resume mutation and proof
synthesis. -/
def failsWith3 (env : SingleEnv) (e : String) : Prop :=
  env.coverLetter = Except.error e
  ∨ ((∃ cl, env.coverLetter = Except.ok cl) ∧ env.mutation = Except.error e)
  ∨ ((∃ cl, env.coverLetter = Except.ok cl) ∧ (∃ mu, env.mutation = Except.ok mu)
      ∧ env.proofOutcome = Except.error e)

/-- The single-job environment rejects with message `e` at its first
failing step, among cover letter and resume mutation (the two
collaborator calls `startTailoring` makes). -/
def failsWith2 (env : SingleEnv) (e : String) : Prop :=
  env.coverLetter = Except.error e
  ∨ ((∃ cl, env.coverLetter = Except.ok cl) ∧ env.mutation = Except.error e)

/-! Claim theorems. -/

/-- Emitted logs of a concatenated trace. -/
theorem emitted_append (a b : List Event) : emitted (a ++ b) = emitted a ++ emitted b :=
  List.filterMap_append a b _

/-- Observable events of a concatenated trace. -/
theorem observables_append (a b : List Event) :
    observables (a ++ b) = observables a ++ observables b :=
  List.filter_append a b

/-- Telemetry lines carry no emitted log, so restricting a trace to its
observable events preserves the emitted logs. -/
theorem emitted_observables (tr : List Event) : emitted (observables tr) = emitted tr := by
  induction tr with
  | nil => rfl
  | cons e rest ih =>
    cases e <;> simp [observables, emitted] at ih ⊢ <;> exact ih

/-- C1 counterexample: with every collaborator succeeding,
`startTailoring` of src/unnamed/part_001 hands `onApply` an
ApplicationLog whose status is COMPLETED but whose `verification` field
is absent — a COMPLETED log missing a required artifact, which the
claim asserts can never be emitted. -/
theorem startTailoring_completed_without_verification :
    emitted (startTailoringP1 (some jobA) false envOkA ctxA)
      = [p1Log jobA ctxA "Dear team" muA]
  ∧ (p1Log jobA ctxA "Dear team" muA).status = ApplicationStatus.COMPLETED
  ∧ (p1Log jobA ctxA "Dear team" muA).verification = none := by
  exact ⟨rfl, rfl, rfl⟩

/-- C1 amended: every log emitted by `startAutomation`
(src/components/JobHunter.tsx) has status COMPLETED with coverLetter,
mutatedResume and verification all populated; every log emitted by
`startTailoring` (src/unnamed/part_001) has status COMPLETED with
coverLetter and mutatedResume populated but no verification; and for
both runners a run whose final status is FAILED emits no log at all. -/
theorem single_cycle_artifact_population (job : Job) (style : CoverLetterStyle)
    (env : SingleEnv) (ctx : Ctx) :
    (∀ l ∈ emitted (startAutomationTSX (some job) false style env ctx),
        l.status = ApplicationStatus.COMPLETED ∧ l.coverLetter.isSome = true
          ∧ l.mutatedResume.isSome = true ∧ l.verification.isSome = true)
  ∧ (∀ l ∈ emitted (startTailoringP1 (some job) false env ctx),
        l.status = ApplicationStatus.COMPLETED ∧ l.coverLetter.isSome = true
          ∧ l.mutatedResume.isSome = true ∧ l.verification = none)
  ∧ (finalStatus (startAutomationTSX (some job) false style env ctx) = some ApplicationStatus.FAILED →
        emitted (startAutomationTSX (some job) false style env ctx) = [])
  ∧ (finalStatus (startTailoringP1 (some job) false env ctx) = some ApplicationStatus.FAILED →
        emitted (startTailoringP1 (some job) false env ctx) = []) := by
  obtain ⟨cl, mu, pf⟩ := env
  cases cl <;> cases mu <;> cases pf <;>
    simp [startAutomationTSX, startTailoringP1, emitted, finalStatus, statuses,
      tsxLog, p1Log]

/-- C1 witness: the amended theorem applied to the sample job, style,
all-successful environment and context. -/
theorem single_cycle_artifact_population_witness :
    (tsxLog jobA CoverLetterStyle.CHILL_PROFESSIONAL ctxA "Dear team" muA prA).status
        = ApplicationStatus.COMPLETED
  ∧ (tsxLog jobA CoverLetterStyle.CHILL_PROFESSIONAL ctxA "Dear team" muA prA).coverLetter.isSome = true
  ∧ (tsxLog jobA CoverLetterStyle.CHILL_PROFESSIONAL ctxA "Dear team" muA prA).mutatedResume.isSome = true
  ∧ (tsxLog jobA CoverLetterStyle.CHILL_PROFESSIONAL ctxA "Dear team" muA prA).verification.isSome = true :=
  (single_cycle_artifact_population jobA CoverLetterStyle.CHILL_PROFESSIONAL envOkA ctxA).1
    (tsxLog jobA CoverLetterStyle.CHILL_PROFESSIONAL ctxA "Dear team" muA prA) (by decide)

/-- C4 counterexample: the `mutateResume` of src/services/gemini.ts has
no catch around its response parse, so an unparseable collaborator
response propagates as an error instead of resolving with the fallback
the claim describes. -/
theorem mutateResumeGemini_propagates_parse_error :
    mutateResumeGemini MutateResp.unparseable 10 2
      = Except.error "SyntaxError: Unexpected token in JSON" := rfl

/-- C4 amended: for a profile whose track list is non-empty, the
`mutateResume` of src/unnamed/part_003 resolves an unparseable
collaborator response with the first resume track's content verbatim
and the fixed placeholder report (atsScoreEstimate 50, empty
keywordsInjected, iterationCount 1); the `mutateResume` of
src/services/gemini.ts instead propagates the parse error. -/
theorem mutateResume_parse_failure_fallback (p : UserProfile) (t : ResumeTrack)
    (rest : List ResumeTrack) (mutationMs analysisMs : Nat)
    (h : p.resumeTracks = t :: rest) :
    mutateResumeP3 p MutateResp.unparseable
      = Except.ok { mutatedResume := some t.content, report := some (p3FallbackReport p) }
  ∧ (p3FallbackReport p).atsScoreEstimate = some 50
  ∧ (p3FallbackReport p).keywordsInjected = some []
  ∧ (p3FallbackReport p).iterationCount = some 1
  ∧ ∃ msg, mutateResumeGemini MutateResp.unparseable mutationMs analysisMs = Except.error msg := by
  refine ⟨?_, rfl, rfl, rfl, ⟨"SyntaxError: Unexpected token in JSON", rfl⟩⟩
  simp [mutateResumeP3, h]

/-- C4 witness: the amended theorem applied to the sample profile,
whose track list is the singleton containing the sample track. -/
theorem mutateResume_parse_failure_fallback_witness :
    mutateResumeP3 profileA MutateResp.unparseable
      = Except.ok { mutatedResume := some trackA.content, report := some (p3FallbackReport profileA) }
  ∧ (p3FallbackReport profileA).atsScoreEstimate = some 50 :=
  ⟨(mutateResume_parse_failure_fallback profileA trackA [] 10 2 rfl).1,
   (mutateResume_parse_failure_fallback profileA trackA [] 10 2 rfl).2.1⟩

/-- C9 counterexample: when the Supabase insert fails,
handleNewApplication of src/unnamed/part_002 leaves the in-memory
applications list unchanged (the completed log is dropped) and surfaces
no warning — contradicting the claim that the log is still kept in the
list and a distinct warning is raised. -/
theorem handleNewApplication_drops_log_on_insert_failure :
    handleNewApplication true [] (p1Log jobA ctxA "Dear team" muA)
        (Except.error "insert failed")
      = ([], []) := rfl

/-- C9 amended: on a failed insert the in-memory list is returned
unchanged and the warning list is empty; only a successful insert
appends the log, rewritten with the store-assigned id, and even then no
warning channel exists. -/
theorem handleNewApplication_persistence (apps : List ApplicationLog)
    (log : ApplicationLog) (e savedId : String) :
    handleNewApplication true apps log (Except.error e) = (apps, [])
  ∧ handleNewApplication true apps log (Except.ok savedId)
      = (apps ++ [{ log with id := savedId }], []) := by
  exact ⟨rfl, rfl⟩

/-- C10: interpretCommand of src/services/gemini.ts is total at its
public interface — for every collaborator outcome it resolves (never
rejects), and every throwing path (missing API key, network failure,
unparseable response JSON) resolves to the blocked fallback whose
reason is a fixed non-empty string; a parsed response is returned as
is. -/
theorem interpretCommand_never_rejects (resp : CmdResp) (m : String) (r : CommandResult) :
    (∃ cr, interpretCommand resp = Except.ok cr)
  ∧ interpretCommand (CmdResp.throws m) = Except.ok blockedFallbackCmd
  ∧ interpretCommand CmdResp.unparseable = Except.ok blockedFallbackCmd
  ∧ interpretCommand (CmdResp.parsed r) = Except.ok r
  ∧ blockedFallbackCmd.action = "blocked"
  ∧ (∃ s, blockedFallbackCmd.reason = some s ∧ s ≠ "") := by
  refine ⟨?_, rfl, rfl, rfl, rfl, ⟨"Failed to connect to Command Center.", rfl, by decide⟩⟩
  cases resp <;> exact ⟨_, rfl⟩

/-- C3 counterexample: with the risk gate locked, `startAutomation` and
`runBulkDeployment` of src/unnamed/part_000 produce no event at all at
a concrete job and queue — in particular no transition to RISK_HALT and
no logged block reason, both of which the claim asserts happen. -/
theorem risk_lock_sets_no_status_and_logs_nothing :
    startAutomationP0 (some jobA) (some mrA) true CoverLetterStyle.CHILL_PROFESSIONAL envOkA ctxA = []
  ∧ runBulkDeployment profileA CoverLetterStyle.CHILL_PROFESSIONAL [djA]
      (fun _ => bulkEnvA) (fun _ => false) true false (fun _ => ctxA) = []
  ∧ statuses (startAutomationP0 (some jobA) (some mrA) true
      CoverLetterStyle.CHILL_PROFESSIONAL envOkA ctxA) = []
  ∧ logLines (runBulkDeployment profileA CoverLetterStyle.CHILL_PROFESSIONAL [djA]
      (fun _ => bulkEnvA) (fun _ => false) true false (fun _ => ctxA)) = [] := by
  exact ⟨rfl, rfl, rfl, rfl⟩

/-- C3 amended: with the risk gate locked, both runners return
immediately with an empty effect trace: zero collaborator invocations,
but also no status transition (in particular none to RISK_HALT) and no
logged block reason. -/
theorem risk_lock_halts_with_empty_trace (job : Job) (mr : MatchResult)
    (style : CoverLetterStyle) (env : SingleEnv) (ctx : Ctx) (p : UserProfile)
    (jobs : List DiscoveredJob) (envs : Nat → BulkJobEnv) (stop : Nat → Bool)
    (ba : Bool) (ctxs : Nat → Ctx) :
    startAutomationP0 (some job) (some mr) true style env ctx = []
  ∧ runBulkDeployment p style jobs envs stop true ba ctxs = [] := by
  constructor
  · rfl
  · simp [runBulkDeployment]

/-- C5 counterexample: a fully successful `startAutomation` run in
src/components/JobHunter.tsx reaches COMPLETED and then performs one
more status transition — the deferred reset to PENDING scheduled by the
run itself, not by a newly started run. -/
theorem status_transition_after_completed :
    statuses (startAutomationTSX (some jobA) false CoverLetterStyle.CHILL_PROFESSIONAL envOkA ctxA)
      = [ApplicationStatus.GENERATING_CL, ApplicationStatus.MUTATING_RESUME,
         ApplicationStatus.APPLYING, ApplicationStatus.VERIFYING,
         ApplicationStatus.COMPLETED, ApplicationStatus.PENDING]
  ∧ afterTerminal (statuses (startAutomationTSX (some jobA) false
      CoverLetterStyle.CHILL_PROFESSIONAL envOkA ctxA)) = [ApplicationStatus.PENDING] := by
  exact ⟨rfl, rfl⟩

/-- C5 amended: within one run of the cited handlers, the status
sequence is monotonic up to the first terminal status, but after FAILED
or COMPLETED the run itself may still write exactly one more status,
always PENDING: the deferred 3-second reset in startAutomation, and the
finally-block reset in processInput, whose stale captured status makes
it fire even after a failure. -/
theorem status_after_terminal_only_pending (input : String)
    (stale : ApplicationStatus) (env : InputEnv) (jo : Option Job) (proc : Bool)
    (style : CoverLetterStyle) (env2 : SingleEnv) (ctx : Ctx) :
    (∀ s ∈ afterTerminal (statuses (processInputTSX input stale env)),
        s = ApplicationStatus.PENDING)
  ∧ (∀ s ∈ afterTerminal (statuses (startAutomationTSX jo proc style env2 ctx)),
        s = ApplicationStatus.PENDING)
  ∧ (∀ s ∈ afterTerminal (statuses (processInputP1 input stale env)),
        s = ApplicationStatus.PENDING) := by
  obtain ⟨ex, sc, se⟩ := env
  obtain ⟨cl, mu, pf⟩ := env2
  refine ⟨?_, ?_, ?_⟩
  · by_cases h1 : input.trim = ""
    · simp [processInputTSX, h1, statuses, afterTerminal]
    · by_cases h2 : input.toLower.startsWith "http" = true <;>
      by_cases h3 : stale = ApplicationStatus.FAILED <;>
      cases ex <;> cases sc <;> cases se <;>
        simp [processInputTSX, h1, h2, h3, statuses, afterTerminal]
  · cases jo <;> cases proc <;> cases cl <;> cases mu <;> cases pf <;>
      simp [startAutomationTSX, statuses, afterTerminal]
  · by_cases h1 : input.trim = ""
    · simp [processInputP1, h1, statuses, afterTerminal]
    · by_cases h2 : input.toLower.startsWith "http" = true <;>
      by_cases h3 : stale = ApplicationStatus.FAILED <;>
      cases ex <;> cases sc <;> cases se <;>
        simp [processInputP1, h1, h2, h3, statuses, afterTerminal]

/-- C5 witness: the amended theorem applied to the sample inputs, at
the deferred PENDING reset of the successful startAutomation run. -/
theorem status_after_terminal_only_pending_witness :
    ApplicationStatus.PENDING ∈ afterTerminal (statuses (startAutomationTSX (some jobA) false
        CoverLetterStyle.CHILL_PROFESSIONAL envOkA ctxA))
  ∧ ApplicationStatus.PENDING = ApplicationStatus.PENDING :=
  ⟨by decide,
   (status_after_terminal_only_pending "https://acme.example/jobs/1" ApplicationStatus.PENDING
      inputEnvA (some jobA) false CoverLetterStyle.CHILL_PROFESSIONAL envOkA ctxA).2.1
      ApplicationStatus.PENDING (by decide)⟩

/-- C6 counterexample: a bulk iteration that clears the threshold sets
MUTATING_RESUME strictly before GENERATING_CL — the reverse of the
order the claim asserts for every per-job iteration of a bulk run. -/
theorem bulk_iteration_mutates_before_cover_letter :
    statuses (runBulkDeployment profileA CoverLetterStyle.CHILL_PROFESSIONAL [djA]
        (fun _ => bulkEnvA) (fun _ => false) false false (fun _ => ctxA))
      = [ApplicationStatus.EXTRACTING, ApplicationStatus.MATCHING,
         ApplicationStatus.MUTATING_RESUME, ApplicationStatus.GENERATING_CL,
         ApplicationStatus.APPLYING, ApplicationStatus.VERIFYING,
         ApplicationStatus.PENDING]
  ∧ precedesOK ApplicationStatus.GENERATING_CL ApplicationStatus.MUTATING_RESUME
      (statuses (runBulkDeployment profileA CoverLetterStyle.CHILL_PROFESSIONAL [djA]
        (fun _ => bulkEnvA) (fun _ => false) false false (fun _ => ctxA))) = false := by
  exact ⟨rfl, rfl⟩

/-- C6 amended: the single-job runners follow the happy-path order
(GENERATING_CL before MUTATING_RESUME, then APPLYING, VERIFYING,
COMPLETED), while a bulk iteration runs MUTATING_RESUME before
GENERATING_CL; in the embedding each collaborator outcome is consumed
strictly in program order, so no step starts before the previous one
resolved. -/
theorem single_run_step_order (job : Job) (mr : MatchResult)
    (style : CoverLetterStyle) (env : SingleEnv) (ctx : Ctx) (p : UserProfile)
    (tj : DiscoveredJob) (i total : Nat) (benv : BulkJobEnv) (bctx : Ctx) :
    (precedesOK ApplicationStatus.GENERATING_CL ApplicationStatus.MUTATING_RESUME
        (statuses (startAutomationTSX (some job) false style env ctx)) = true
      ∧ precedesOK ApplicationStatus.MUTATING_RESUME ApplicationStatus.APPLYING
        (statuses (startAutomationTSX (some job) false style env ctx)) = true
      ∧ precedesOK ApplicationStatus.APPLYING ApplicationStatus.VERIFYING
        (statuses (startAutomationTSX (some job) false style env ctx)) = true
      ∧ precedesOK ApplicationStatus.VERIFYING ApplicationStatus.COMPLETED
        (statuses (startAutomationTSX (some job) false style env ctx)) = true)
  ∧ (precedesOK ApplicationStatus.GENERATING_CL ApplicationStatus.MUTATING_RESUME
        (statuses (startAutomationP0 (some job) (some mr) false style env ctx)) = true
      ∧ precedesOK ApplicationStatus.MUTATING_RESUME ApplicationStatus.APPLYING
        (statuses (startAutomationP0 (some job) (some mr) false style env ctx)) = true
      ∧ precedesOK ApplicationStatus.APPLYING ApplicationStatus.VERIFYING
        (statuses (startAutomationP0 (some job) (some mr) false style env ctx)) = true
      ∧ precedesOK ApplicationStatus.VERIFYING ApplicationStatus.COMPLETED
        (statuses (startAutomationP0 (some job) (some mr) false style env ctx)) = true)
  ∧ (precedesOK ApplicationStatus.GENERATING_CL ApplicationStatus.MUTATING_RESUME
        (statuses (startTailoringP1 (some job) false env ctx)) = true
      ∧ precedesOK ApplicationStatus.MUTATING_RESUME ApplicationStatus.VERIFYING
        (statuses (startTailoringP1 (some job) false env ctx)) = true
      ∧ precedesOK ApplicationStatus.VERIFYING ApplicationStatus.COMPLETED
        (statuses (startTailoringP1 (some job) false env ctx)) = true)
  ∧ (precedesOK ApplicationStatus.MUTATING_RESUME ApplicationStatus.GENERATING_CL
        (statuses (runBulkIter p style tj i total benv bctx)) = true
      ∧ precedesOK ApplicationStatus.GENERATING_CL ApplicationStatus.APPLYING
        (statuses (runBulkIter p style tj i total benv bctx)) = true
      ∧ precedesOK ApplicationStatus.APPLYING ApplicationStatus.VERIFYING
        (statuses (runBulkIter p style tj i total benv bctx)) = true) := by
  obtain ⟨cl, mu, pf⟩ := env
  refine ⟨?_, ?_, ?_, ?_⟩
  · cases cl <;> cases mu <;> cases pf <;>
      simp [startAutomationTSX, statuses, precedesOK, precededScan]
  · cases cl <;> cases mu <;> cases pf <;>
      simp [startAutomationP0, statuses, precedesOK, precededScan]
  · cases cl <;> cases mu <;>
      simp [startTailoringP1, statuses, precedesOK, precededScan]
  · obtain ⟨bex, bsc, bmu, bcl, bpf⟩ := benv
    cases bex with
    | error e => simp [runBulkIter, runBulkIterCore, statuses, precedesOK, precededScan]
    | ok jobData =>
      cases bsc with
      | error e => simp [runBulkIter, runBulkIterCore, statuses, precedesOK, precededScan]
      | ok mres =>
        by_cases hth : bulkThreshold p ≤ mres.score
        · cases bmu <;> cases bcl <;> cases bpf <;>
            simp [runBulkIter, runBulkIterCore, hth, statuses, precedesOK, precededScan]
        · simp [runBulkIter, runBulkIterCore, hth, statuses, precedesOK, precededScan]

/-- C7 counterexample: when cover-letter generation rejects,
`startAutomation` of src/unnamed/part_000 ends the run with status
FAILED and emits no ApplicationLog, but its catch block writes no
telemetry line at all — so no human-readable log line containing the
error's message exists, contrary to the claim. -/
theorem p0_collaborator_failure_logs_nothing :
    finalStatus (startAutomationP0 (some jobA) (some mrA) false
        CoverLetterStyle.CHILL_PROFESSIONAL envFailCLA ctxA) = some ApplicationStatus.FAILED
  ∧ emitted (startAutomationP0 (some jobA) (some mrA) false
        CoverLetterStyle.CHILL_PROFESSIONAL envFailCLA ctxA) = []
  ∧ logLines (startAutomationP0 (some jobA) (some mrA) false
        CoverLetterStyle.CHILL_PROFESSIONAL envFailCLA ctxA) = [] := by
  exact ⟨rfl, rfl, rfl⟩

/-- C7 amended: any collaborator rejection aborts the run at that step
with final status FAILED and no ApplicationLog emitted, in all three
single-job runners; `startAutomation` of src/components/JobHunter.tsx
and `startTailoring` of src/unnamed/part_001 additionally log a line
carrying the error's message, while `startAutomation` of
src/unnamed/part_000 fails without logging the message. -/
theorem collaborator_rejection_aborts (job : Job) (mr : MatchResult)
    (style : CoverLetterStyle) (env : SingleEnv) (ctx : Ctx) (e : String) :
    (failsWith3 env e →
        finalStatus (startAutomationTSX (some job) false style env ctx)
            = some ApplicationStatus.FAILED
      ∧ emitted (startAutomationTSX (some job) false style env ctx) = []
      ∧ ("DISPATCH FAILED: " ++ e) ∈ logLines (startAutomationTSX (some job) false style env ctx))
  ∧ (failsWith2 env e →
        finalStatus (startTailoringP1 (some job) false env ctx) = some ApplicationStatus.FAILED
      ∧ emitted (startTailoringP1 (some job) false env ctx) = []
      ∧ ("Tailoring Failed: " ++ e) ∈ logLines (startTailoringP1 (some job) false env ctx))
  ∧ (failsWith3 env e →
        finalStatus (startAutomationP0 (some job) (some mr) false style env ctx)
            = some ApplicationStatus.FAILED
      ∧ emitted (startAutomationP0 (some job) (some mr) false style env ctx) = []) := by
  refine ⟨?_, ?_, ?_⟩
  · rintro (hcl | ⟨⟨cl, hok⟩, hmu⟩ | ⟨⟨cl, hok⟩, ⟨mu2, hmok⟩, hpf⟩)
    · simp [startAutomationTSX, finalStatus, statuses, emitted, logLines, hcl]
    · simp [startAutomationTSX, finalStatus, statuses, emitted, logLines, hok, hmu]
    · simp [startAutomationTSX, finalStatus, statuses, emitted, logLines, hok, hmok, hpf]
  · rintro (hcl | ⟨⟨cl, hok⟩, hmu⟩)
    · simp [startTailoringP1, finalStatus, statuses, emitted, logLines, hcl]
    · simp [startTailoringP1, finalStatus, statuses, emitted, logLines, hok, hmu]
  · rintro (hcl | ⟨⟨cl, hok⟩, hmu⟩ | ⟨⟨cl, hok⟩, ⟨mu2, hmok⟩, hpf⟩)
    · simp [startAutomationP0, finalStatus, statuses, emitted, hcl]
    · simp [startAutomationP0, finalStatus, statuses, emitted, hok, hmu]
    · simp [startAutomationP0, finalStatus, statuses, emitted, hok, hmok, hpf]

/-- C7 witness: the amended theorem applied to the environment whose
cover-letter call rejects with the message Network Error. -/
theorem collaborator_rejection_aborts_witness :
    finalStatus (startAutomationTSX (some jobA) false CoverLetterStyle.CHILL_PROFESSIONAL
        envFailCLA ctxA) = some ApplicationStatus.FAILED
  ∧ emitted (startAutomationTSX (some jobA) false CoverLetterStyle.CHILL_PROFESSIONAL
        envFailCLA ctxA) = []
  ∧ ("DISPATCH FAILED: " ++ "Network Error") ∈ logLines (startAutomationTSX (some jobA) false
        CoverLetterStyle.CHILL_PROFESSIONAL envFailCLA ctxA) :=
  (collaborator_rejection_aborts jobA mrA CoverLetterStyle.CHILL_PROFESSIONAL
      envFailCLA ctxA "Network Error").1 (Or.inl rfl)

/-- Unfolding: the loop over an empty queue does nothing. -/
theorem runBulkFrom_nil (p : UserProfile) (style : CoverLetterStyle)
    (envs : Nat → BulkJobEnv) (stop : Nat → Bool) (ctxs : Nat → Ctx) (total i : Nat) :
    runBulkFrom p style envs stop ctxs total i [] = [] := rfl

/-- Unfolding: one step of the loop checks the stop flag, then runs the
iteration and recurses. -/
theorem runBulkFrom_cons (p : UserProfile) (style : CoverLetterStyle)
    (envs : Nat → BulkJobEnv) (stop : Nat → Bool) (ctxs : Nat → Ctx) (total i : Nat)
    (tj : DiscoveredJob) (rest : List DiscoveredJob) :
    runBulkFrom p style envs stop ctxs total i (tj :: rest)
      = if stop i then []
        else runBulkIter p style tj i total (envs i) (ctxs i)
          ++ runBulkFrom p style envs stop ctxs total (i + 1) rest := rfl

/-- One bulk iteration hands at most one log to `onApply`. -/
theorem bulkIter_emitted_le_one (p : UserProfile) (style : CoverLetterStyle)
    (tj : DiscoveredJob) (i total : Nat) (env : BulkJobEnv) (ctx : Ctx) :
    (emitted (runBulkIter p style tj i total env ctx)).length ≤ 1 := by
  obtain ⟨bex, bsc, bmu, bcl, bpf⟩ := env
  cases bex with
  | error e => simp [runBulkIter, runBulkIterCore, emitted]
  | ok jobData =>
    cases bsc with
    | error e => simp [runBulkIter, runBulkIterCore, emitted]
    | ok mres =>
      by_cases hth : bulkThreshold p ≤ mres.score
      · cases bmu <;> cases bcl <;> cases bpf <;>
          simp [runBulkIter, runBulkIterCore, hth, emitted]
      · simp [runBulkIter, runBulkIterCore, hth, emitted]

/-- A log emitted by a bulk iteration certifies that the iteration's
match score resolved and cleared the threshold. -/
theorem bulkIter_emitted_score (p : UserProfile) (style : CoverLetterStyle)
    (tj : DiscoveredJob) (i total : Nat) (env : BulkJobEnv) (ctx : Ctx)
    (l : ApplicationLog) (hl : l ∈ emitted (runBulkIter p style tj i total env ctx)) :
    ∃ mres, env.score = Except.ok mres ∧ bulkThreshold p ≤ mres.score := by
  obtain ⟨bex, bsc, bmu, bcl, bpf⟩ := env
  cases bex with
  | error e => simp [runBulkIter, runBulkIterCore, emitted] at hl
  | ok jobData =>
    cases bsc with
    | error e => simp [runBulkIter, runBulkIterCore, emitted] at hl
    | ok mres =>
      by_cases hth : bulkThreshold p ≤ mres.score
      · exact ⟨mres, rfl, hth⟩
      · simp [runBulkIter, runBulkIterCore, hth, emitted] at hl

/-- Over the loop from index `i`, at most one log per queue entry is
emitted and every emitted log certifies an in-range iteration whose
score resolved and cleared the threshold. -/
theorem bulkFrom_emitted (p : UserProfile) (style : CoverLetterStyle)
    (envs : Nat → BulkJobEnv) (stop : Nat → Bool) (ctxs : Nat → Ctx) (total : Nat)
    (jobs : List DiscoveredJob) : ∀ (i : Nat),
    (emitted (runBulkFrom p style envs stop ctxs total i jobs)).length ≤ jobs.length
  ∧ ∀ l ∈ emitted (runBulkFrom p style envs stop ctxs total i jobs),
      ∃ j mres, i ≤ j ∧ j < i + jobs.length ∧ (envs j).score = Except.ok mres
        ∧ bulkThreshold p ≤ mres.score := by
  induction jobs with
  | nil => intro i; simp [runBulkFrom_nil, emitted]
  | cons tj rest ih =>
    intro i
    by_cases hstop : stop i = true
    · constructor
      · simp [runBulkFrom_cons, hstop, emitted]
      · intro l hl
        simp [runBulkFrom_cons, hstop, emitted] at hl
    · simp only [Bool.not_eq_true] at hstop
      constructor
      · have hle1 := bulkIter_emitted_le_one p style tj i total (envs i) (ctxs i)
        have hle2 := (ih (i + 1)).1
        rw [runBulkFrom_cons, if_neg (by simp [hstop]), emitted_append,
          List.length_append, List.length_cons]
        omega
      · intro l hl
        rw [runBulkFrom_cons, if_neg (by simp [hstop]), emitted_append] at hl
        rcases List.mem_append.mp hl with hl1 | hl2
        · obtain ⟨mres, hsc, hth⟩ :=
            bulkIter_emitted_score p style tj i total (envs i) (ctxs i) l hl1
          exact ⟨i, mres, le_refl i, by simp, hsc, hth⟩
        · obtain ⟨j, mres, hij, hjlt, hsc, hth⟩ := (ih (i + 1)).2 l hl2
          exact ⟨j, mres, by omega, by simp at hjlt ⊢; omega, hsc, hth⟩

/-- C2: over a bulk run on a queue of N discovered jobs, at most N
ApplicationLogs are handed to `onApply`, and every emitted log comes
from an iteration whose computed match score resolved and was at least
the threshold (the profile's matchThreshold, with the fixed default 70
substituted for the falsy value 0); iterations scoring below the
threshold emit nothing. -/
theorem bulk_threshold_gate (p : UserProfile) (style : CoverLetterStyle)
    (jobs : List DiscoveredJob) (envs : Nat → BulkJobEnv) (stop : Nat → Bool)
    (lk ba : Bool) (ctxs : Nat → Ctx) :
    (emitted (runBulkDeployment p style jobs envs stop lk ba ctxs)).length ≤ jobs.length
  ∧ ∀ l ∈ emitted (runBulkDeployment p style jobs envs stop lk ba ctxs),
      ∃ j mres, j < jobs.length ∧ (envs j).score = Except.ok mres
        ∧ bulkThreshold p ≤ mres.score := by
  unfold runBulkDeployment
  split
  · simp [emitted]
  · have h := bulkFrom_emitted p style envs stop ctxs jobs.length jobs 0
    have hpen : emitted [Event.setStatus ApplicationStatus.PENDING]
        = ([] : List ApplicationLog) := rfl
    constructor
    · rw [emitted_append, hpen, List.append_nil]
      exact h.1
    · intro l hl
      rw [emitted_append, hpen, List.append_nil] at hl
      obtain ⟨j, mres, _, hjlt, hsc, hth⟩ := h.2 l hl
      exact ⟨j, mres, by omega, hsc, hth⟩

/-- C2 witness: the threshold-gate theorem applied to the singleton
queue, the all-successful iteration environment with score 85 and
threshold 70, producing exactly the one gated log. -/
theorem bulk_threshold_gate_witness :
    (emitted (runBulkDeployment profileA CoverLetterStyle.CHILL_PROFESSIONAL [djA]
        (fun _ => bulkEnvA) (fun _ => false) false false (fun _ => ctxA))).length ≤ 1
  ∧ ∃ j mres, j < 1 ∧ ((fun _ => bulkEnvA) j).score = Except.ok mres
      ∧ bulkThreshold profileA ≤ mres.score := by
  have h := bulk_threshold_gate profileA CoverLetterStyle.CHILL_PROFESSIONAL [djA]
    (fun _ => bulkEnvA) (fun _ => false) false false (fun _ => ctxA)
  exact ⟨h.1, h.2 (bulkLog jobA CoverLetterStyle.CHILL_PROFESSIONAL ctxA "Dear team" muA prA)
    (by decide)⟩

/-- The observable events of a bulk iteration do not depend on the
reported queue total, which only feeds the telemetry line. -/
theorem bulkIter_observables_total (p : UserProfile) (style : CoverLetterStyle)
    (tj : DiscoveredJob) (i t1 t2 : Nat) (env : BulkJobEnv) (ctx : Ctx) :
    observables (runBulkIter p style tj i t1 env ctx)
      = observables (runBulkIter p style tj i t2 env ctx) := by
  simp [runBulkIter, observables]

/-- Cancellation lemma for the loop: if the stop flag reads false up to
index k and true after it, the loop from index `i` behaves — on all
observable events — exactly like the never-cancelled loop over the
first k+1-i queue entries. -/
theorem bulkFrom_cancel (p : UserProfile) (style : CoverLetterStyle)
    (envs : Nat → BulkJobEnv) (ctxs : Nat → Ctx) (stop : Nat → Bool) (k t1 t2 : Nat)
    (h1 : ∀ j, j ≤ k → stop j = false) (h2 : ∀ j, k < j → stop j = true)
    (jobs : List DiscoveredJob) : ∀ (i : Nat),
    observables (runBulkFrom p style envs stop ctxs t1 i jobs)
      = observables (runBulkFrom p style envs (fun _ => false) ctxs t2 i
          (jobs.take (k + 1 - i))) := by
  induction jobs with
  | nil => intro i; simp [runBulkFrom_nil]
  | cons tj rest ih =>
    intro i
    by_cases hik : i ≤ k
    · have hs : stop i = false := h1 i hik
      have hn : k + 1 - i = (k + 1 - (i + 1)) + 1 := by omega
      rw [hn, List.take_succ_cons]
      rw [runBulkFrom_cons, if_neg (by simp [hs]), runBulkFrom_cons, if_neg (by simp)]
      rw [observables_append, observables_append,
        bulkIter_observables_total p style tj i t1 t2 (envs i) (ctxs i), ih (i + 1)]
    · have hs : stop i = true := h2 i (by omega)
      have hn : k + 1 - i = 0 := by omega
      rw [hn]
      simp [runBulkFrom_cons, runBulkFrom_nil, hs]

/-- C8: if the cancellation flag is first read true at iteration k+1
(false through iteration k), the bulk run is — on all observable
events, and in particular on the ApplicationLogs handed to `onApply` —
identical to a never-cancelled bulk run over the first k+1 queue
entries: iteration k completes, iteration k+1 never starts, and none of
the logs emitted up to iteration k is reverted. -/
theorem bulk_cancellation (p : UserProfile) (style : CoverLetterStyle)
    (jobs : List DiscoveredJob) (envs : Nat → BulkJobEnv) (ctxs : Nat → Ctx)
    (stop : Nat → Bool) (k : Nat) (lk ba : Bool)
    (h1 : ∀ j, j ≤ k → stop j = false) (h2 : ∀ j, k < j → stop j = true) :
    observables (runBulkDeployment p style jobs envs stop lk ba ctxs)
      = observables (runBulkDeployment p style (jobs.take (k + 1)) envs
          (fun _ => false) lk ba ctxs)
  ∧ emitted (runBulkDeployment p style jobs envs stop lk ba ctxs)
      = emitted (runBulkDeployment p style (jobs.take (k + 1)) envs
          (fun _ => false) lk ba ctxs) := by
  have key : observables (runBulkDeployment p style jobs envs stop lk ba ctxs)
      = observables (runBulkDeployment p style (jobs.take (k + 1)) envs
          (fun _ => false) lk ba ctxs) := by
    rcases jobs with _ | ⟨j0, jrest⟩
    · simp [runBulkDeployment]
    · cases lk with
      | true => simp [runBulkDeployment]
      | false =>
        cases ba with
        | true => simp [runBulkDeployment]
        | false =>
          rw [runBulkDeployment, if_neg (by simp), List.take_succ_cons,
            runBulkDeployment, if_neg (by simp)]
          rw [observables_append, observables_append]
          have := bulkFrom_cancel p style envs ctxs stop k
            ((j0 :: jrest).length) ((j0 :: jrest.take k).length) h1 h2 (j0 :: jrest) 0
          simpa using this
  refine ⟨key, ?_⟩
  calc emitted (runBulkDeployment p style jobs envs stop lk ba ctxs)
      = emitted (observables (runBulkDeployment p style jobs envs stop lk ba ctxs)) :=
        (emitted_observables _).symm
    _ = emitted (observables (runBulkDeployment p style (jobs.take (k + 1)) envs
          (fun _ => false) lk ba ctxs)) := by rw [key]
    _ = emitted (runBulkDeployment p style (jobs.take (k + 1)) envs
          (fun _ => false) lk ba ctxs) := emitted_observables _

/-- C8 witness: the cancellation theorem applied to a two-entry queue
with the flag set during iteration 0: the run equals the
never-cancelled run over the first entry alone. -/
theorem bulk_cancellation_witness :
    observables (runBulkDeployment profileA CoverLetterStyle.CHILL_PROFESSIONAL [djA, djB]
        (fun _ => bulkEnvA) (fun j => decide (1 ≤ j)) false false (fun _ => ctxA))
      = observables (runBulkDeployment profileA CoverLetterStyle.CHILL_PROFESSIONAL
          ([djA, djB].take 1) (fun _ => bulkEnvA) (fun _ => false) false false (fun _ => ctxA))
  ∧ emitted (runBulkDeployment profileA CoverLetterStyle.CHILL_PROFESSIONAL [djA, djB]
        (fun _ => bulkEnvA) (fun j => decide (1 ≤ j)) false false (fun _ => ctxA))
      = emitted (runBulkDeployment profileA CoverLetterStyle.CHILL_PROFESSIONAL
          ([djA, djB].take 1) (fun _ => bulkEnvA) (fun _ => false) false false (fun _ => ctxA)) :=
  bulk_cancellation profileA CoverLetterStyle.CHILL_PROFESSIONAL [djA, djB]
    (fun _ => bulkEnvA) (fun _ => ctxA) (fun j => decide (1 ≤ j)) 0 false false
    (fun j hj => by
      have hj0 : j = 0 := Nat.le_zero.mp hj
      subst hj0
      rfl)
    (fun j hj => decide_eq_true (by omega))

end AutoJob
